import Mathlib

/-!
Shallow embedding of the tags_selector selection engine
(`artists_selector.py`, `character_selector.py`).

Modelling conventions:
* CSV rows become structures; a loaded dataframe is a `List` of rows
  (pandas filtering is order-preserving `List.filter`).
* Python `set` objects (the used-sets) are modelled as `List String`
  with membership semantics; `set.add` is list append, `set.clear` is `[]`.
* The process-global random source is modelled by an explicit `Draw`
  oracle: `k` is the value returned by `random.randint(min_count, max_count)`,
  `idxs` are the distinct row positions chosen by `DataFrame.sample`
  (`sample(n=c)` consumes the first `c` of them), and `ws` are the values
  returned by `random.uniform(min_weight, max_weight)`.  The constraints
  the library guarantees for these draws are collected in `DrawValid`.
* Python floats are modelled as `ℚ`; `round(x, 2)` is `roundTo2`
  (round to the nearest multiple of 1/100; Python's tie-breaking is
  round-half-even while Mathlib's `round` is half-up, but no statement
  below depends on the tie case).
* The two `ValueError`s raised by a selection call and the invalid-mode
  `ValueError` are distinguished by their message in the source; they are
  modelled as the constructors of `SelError`.
-/

/-- Row of an artist CSV: columns `artist`, `trigger`, `count`, `url`. -/
structure ArtistRow where
  artist : String
  trigger : String
  count : Nat
  url : String
deriving DecidableEq

/-- Row of a character CSV: columns `character`, `copyright`, `trigger`,
`count`, `solo_count`, `url`, plus the normalized `core_tags` list. -/
structure CharacterRow where
  character : String
  copyright : String
  trigger : String
  count : Nat
  solo_count : Nat
  url : String
  core_tags : List String
deriving DecidableEq

/-- Error kinds a selection call can raise (`ValueError`s in the source,
distinguished by message). -/
inductive SelError where
  | invalidParameter
  | noEligibleRecords
  | invalidMode
deriving DecidableEq

/-- Oracle for one selection call's randomness: the `randint` result `k`,
the row positions chosen by `DataFrame.sample`, and the `random.uniform`
weight draws. -/
structure Draw where
  k : Nat
  idxs : List Nat
  ws : List ℚ
deriving DecidableEq

/-- Default draw, used only to give out-of-range trace indices a value. -/
def defaultDraw : Draw := ⟨0, [], []⟩

/-- Model of Python `round(x, 2)`: round to the nearest multiple of 1/100. -/
def roundTo2 (q : ℚ) : ℚ := ((round (q * 100) : ℤ) : ℚ) / 100

/-- Model of `DataFrame.sample` row selection: read the rows of `l` at the
given positions (out-of-range positions yield nothing). -/
def sampleIdx {α : Type} (l : List α) (idxs : List Nat) : List α :=
  idxs.filterMap (fun i => l[i]?)

/-- Shared tail of both selection modes: `count = min(randint_result, len(pool))`
rows are sampled from `pool` and each is paired (by `mk`) with its
`round(uniform(..), 2)` weight. -/
def mkResult {α β : Type} (mk : α → ℚ → β) (pool : List α) (d : Draw) : List β :=
  List.zipWith mk (sampleIdx pool (d.idxs.take (min d.k pool.length))) (d.ws.map roundTo2)

/-- Constraints the Python random library guarantees for the draws of one
call whose sampled pool has length `n`: `randint(minC, maxC) ∈ [minC, maxC]`,
`sample` picks distinct in-range row positions (enough of them for the
requested count), and `uniform(minW, maxW) ∈ [minW, maxW]`. -/
def DrawValid (d : Draw) (minC maxC : Nat) (minW maxW : ℚ) (n : Nat) : Prop :=
  minC ≤ d.k ∧ d.k ≤ maxC ∧ d.idxs.Nodup ∧ (∀ i ∈ d.idxs, i < n) ∧
    min d.k n ≤ d.idxs.length ∧ min d.k n ≤ d.ws.length ∧
    ∀ w ∈ d.ws, minW ≤ w ∧ w ≤ maxW

instance (d : Draw) (minC maxC : Nat) (minW maxW : ℚ) (n : Nat) :
    Decidable (DrawValid d minC maxC minW maxW n) := by
  unfold DrawValid
  infer_instance

/-! ## Artist selector (`artists_selector.py`) -/

/-- Effective numeric parameters of one `select_artists` call. -/
structure ArtistParams where
  min_count : Nat
  max_count : Nat
  min_weight : ℚ
  max_weight : ℚ
  min_works : Nat
deriving DecidableEq

/-- Line 88-90/125: `artists_df[artists_df['count'] >= min_works]`. -/
def eligibleArtists (df : List ArtistRow) (min_works : Nat) : List ArtistRow :=
  df.filter (fun r => decide (min_works ≤ r.count))

/-- Line 126: `all_valid_artists[~all_valid_artists['trigger'].isin(self._used_artists)]`. -/
def availableArtists (df : List ArtistRow) (min_works : Nat) (used : List String) :
    List ArtistRow :=
  (eligibleArtists df min_works).filter (fun r => !decide (r.trigger ∈ used))

/-- Lines 129-132: the pool actually sampled in `only` mode — the available
rows, or all eligible rows after the exhaustion reset. -/
def artistPool (df : List ArtistRow) (min_works : Nat) (used : List String) :
    List ArtistRow :=
  if availableArtists df min_works used = [] then eligibleArtists df min_works
  else availableArtists df min_works used

/-- Lines 129-131: the used-set after the exhaustion check (cleared exactly
when the available pool was empty). -/
def artistUsedAfterReset (df : List ArtistRow) (min_works : Nat) (used : List String) :
    List String :=
  if availableArtists df min_works used = [] then [] else used

/-- Embedding of `ArtistSelector._select_artists_random` (lines 76-108). -/
def selectArtistsRandom (df : List ArtistRow) (p : ArtistParams) (d : Draw) :
    Except SelError (List (String × ℚ)) :=
  if p.min_count > p.max_count then .error .invalidParameter
  else if p.min_weight > p.max_weight then .error .invalidParameter
  else if eligibleArtists df p.min_works = [] then .error .noEligibleRecords
  else .ok (mkResult (fun r w => (r.trigger, w)) (eligibleArtists df p.min_works) d)

/-- Embedding of `ArtistSelector._select_artists_only` (lines 110-156).
Returns the call outcome together with the used-set after the call
(the used-set lives on even when the call raises). -/
def selectArtistsOnly (df : List ArtistRow) (p : ArtistParams) (used : List String)
    (d : Draw) : Except SelError (List (String × ℚ)) × List String :=
  if p.min_count > p.max_count then (.error .invalidParameter, used)
  else if p.min_weight > p.max_weight then (.error .invalidParameter, used)
  else if artistPool df p.min_works used = [] then
    (.error .noEligibleRecords, artistUsedAfterReset df p.min_works used)
  else
    (.ok (mkResult (fun r w => (r.trigger, w)) (artistPool df p.min_works used) d),
      artistUsedAfterReset df p.min_works used ++
        (mkResult (fun r w => (r.trigger, w)) (artistPool df p.min_works used) d).map
          Prod.fst)

/-- The `artist_selector` section of the configuration. -/
structure ArtistConfig where
  min_count : Nat
  max_count : Nat
  min_weight : ℚ
  max_weight : ℚ
  min_works : Nat
  mode : String
deriving DecidableEq

/-- Optional per-call overrides accepted by `select_artists` (Python's
`None`-defaulted keyword arguments). -/
structure ArtistArgs where
  min_count : Option Nat
  max_count : Option Nat
  min_weight : Option ℚ
  max_weight : Option ℚ
  min_works : Option Nat
  mode : Option String
deriving DecidableEq

/-- Lines 56-65: each numeric parameter falls back to the configuration
when the call passed `None`. -/
def resolveArtistParams (cfg : ArtistConfig) (a : ArtistArgs) : ArtistParams :=
  ⟨a.min_count.getD cfg.min_count, a.max_count.getD cfg.max_count,
    a.min_weight.getD cfg.min_weight, a.max_weight.getD cfg.max_weight,
    a.min_works.getD cfg.min_works⟩

/-- Embedding of `ArtistSelector.select_artists` (lines 46-74): resolves
parameters, then reads `mode` fresh from the configuration (line 67 —
the `mode` argument in `a` is never consulted) and dispatches. -/
def select_artists (df : List ArtistRow) (cfg : ArtistConfig) (a : ArtistArgs)
    (used : List String) (d : Draw) :
    Except SelError (List (String × ℚ)) × List String :=
  if cfg.mode = "random" then (selectArtistsRandom df (resolveArtistParams cfg a) d, used)
  else if cfg.mode = "only" then selectArtistsOnly df (resolveArtistParams cfg a) used d
  else (.error .invalidMode, used)

/-- Embedding of `ArtistSelector.reset_used_artists` (lines 158-161).
`none` models the `_used_artists` attribute not existing yet (`hasattr`
check); the attribute, when present, is cleared unconditionally. -/
def reset_used_artists : Option (List String) → Option (List String)
  | some _ => some []
  | none => none

/-- Tokens held by a possibly-not-yet-created used-set. -/
def usedTokens : Option (List String) → List String
  | some l => l
  | none => []

/-! ## Character selector (`character_selector.py`) -/

/-- Effective numeric parameters of one `select_characters` call. -/
structure CharacterParams where
  min_count : Nat
  max_count : Nat
  min_weight : ℚ
  max_weight : ℚ
  min_total_works : Nat
  min_solo_works : Nat
deriving DecidableEq

/-- Lines 111-120/161-170: threshold filter, then — only when the passed
`copyright_filter` is truthy, i.e. a non-empty list — the copyright filter
(`[]` models both Python `None` and an empty list). -/
def eligibleCharacters (df : List CharacterRow) (min_total_works min_solo_works : Nat)
    (cf : List String) : List CharacterRow :=
  if cf = [] then
    df.filter (fun r =>
      decide (min_total_works ≤ r.count) && decide (min_solo_works ≤ r.solo_count))
  else
    (df.filter (fun r =>
      decide (min_total_works ≤ r.count) && decide (min_solo_works ≤ r.solo_count))).filter
      (fun r => decide (r.copyright ∈ cf))

/-- Lines 172-174: rows whose trigger is not in the used-set. -/
def availableCharacters (df : List CharacterRow) (min_total_works min_solo_works : Nat)
    (cf : List String) (used : List String) : List CharacterRow :=
  (eligibleCharacters df min_total_works min_solo_works cf).filter
    (fun r => !decide (r.trigger ∈ used))

/-- Lines 177-180: the pool actually sampled in `only` mode. -/
def characterPool (df : List CharacterRow) (min_total_works min_solo_works : Nat)
    (cf : List String) (used : List String) : List CharacterRow :=
  if availableCharacters df min_total_works min_solo_works cf used = [] then
    eligibleCharacters df min_total_works min_solo_works cf
  else availableCharacters df min_total_works min_solo_works cf used

/-- Lines 177-179: the used-set after the exhaustion check. -/
def characterUsedAfterReset (df : List CharacterRow) (min_total_works min_solo_works : Nat)
    (cf : List String) (used : List String) : List String :=
  if availableCharacters df min_total_works min_solo_works cf used = [] then []
  else used

/-- Embedding of `CharacterSelector._select_characters_random` (lines 96-141).
After loading, `core_tags` is always a list, so the row's `isinstance`
guard always takes its list branch. -/
def selectCharactersRandom (df : List CharacterRow) (p : CharacterParams)
    (cf : List String) (d : Draw) :
    Except SelError (List (String × ℚ × List String)) :=
  if p.min_count > p.max_count then .error .invalidParameter
  else if p.min_weight > p.max_weight then .error .invalidParameter
  else if eligibleCharacters df p.min_total_works p.min_solo_works cf = [] then
    .error .noEligibleRecords
  else
    .ok (mkResult (fun r w => (r.trigger, w, r.core_tags))
      (eligibleCharacters df p.min_total_works p.min_solo_works cf) d)

/-- Embedding of `CharacterSelector._select_characters_only` (lines 143-205). -/
def selectCharactersOnly (df : List CharacterRow) (p : CharacterParams)
    (cf : List String) (used : List String) (d : Draw) :
    Except SelError (List (String × ℚ × List String)) × List String :=
  if p.min_count > p.max_count then (.error .invalidParameter, used)
  else if p.min_weight > p.max_weight then (.error .invalidParameter, used)
  else if characterPool df p.min_total_works p.min_solo_works cf used = [] then
    (.error .noEligibleRecords,
      characterUsedAfterReset df p.min_total_works p.min_solo_works cf used)
  else
    (.ok (mkResult (fun r w => (r.trigger, w, r.core_tags))
        (characterPool df p.min_total_works p.min_solo_works cf used) d),
      characterUsedAfterReset df p.min_total_works p.min_solo_works cf used ++
        (mkResult (fun r w => (r.trigger, w, r.core_tags))
          (characterPool df p.min_total_works p.min_solo_works cf used) d).map Prod.fst)

/-- The `character_selector` section of the configuration. -/
structure CharacterConfig where
  min_count : Nat
  max_count : Nat
  min_weight : ℚ
  max_weight : ℚ
  min_total_works : Nat
  min_solo_works : Nat
  mode : String
deriving DecidableEq

/-- Optional per-call overrides accepted by `select_characters`. -/
structure CharacterArgs where
  min_count : Option Nat
  max_count : Option Nat
  min_weight : Option ℚ
  max_weight : Option ℚ
  min_total_works : Option Nat
  min_solo_works : Option Nat
  copyright_filter : List String
  mode : Option String
deriving DecidableEq

/-- Lines 72-83: numeric parameters fall back to the configuration. -/
def resolveCharacterParams (cfg : CharacterConfig) (a : CharacterArgs) : CharacterParams :=
  ⟨a.min_count.getD cfg.min_count, a.max_count.getD cfg.max_count,
    a.min_weight.getD cfg.min_weight, a.max_weight.getD cfg.max_weight,
    a.min_total_works.getD cfg.min_total_works, a.min_solo_works.getD cfg.min_solo_works⟩

/-- Embedding of `CharacterSelector.select_characters` (lines 59-94): the
`mode` argument is resolved but immediately overwritten from configuration
(line 85) before dispatch. -/
def select_characters (df : List CharacterRow) (cfg : CharacterConfig)
    (a : CharacterArgs) (used : List String) (d : Draw) :
    Except SelError (List (String × ℚ × List String)) × List String :=
  if cfg.mode = "random" then
    (selectCharactersRandom df (resolveCharacterParams cfg a) a.copyright_filter d, used)
  else if cfg.mode = "only" then
    selectCharactersOnly df (resolveCharacterParams cfg a) a.copyright_filter used d
  else (.error .invalidMode, used)

/-- Embedding of `CharacterSelector.reset_used_characters` (lines 207-210). -/
def reset_used_characters : Option (List String) → Option (List String)
  | some _ => some []
  | none => none

/-- Aggregate `count` of all rows of one copyright
(`groupby('copyright')['count'].sum()` for that group key). -/
def copyrightTotal (df : List CharacterRow) (c : String) : Nat :=
  ((df.filter (fun r => decide (r.copyright = c))).map (fun r => r.count)).sum

/-- Embedding of `CharacterSelector.get_available_copyrights` (lines 212-222):
group keys whose aggregate `count` meets the threshold, sorted ascending. -/
def get_available_copyrights (df : List CharacterRow) (min_total_works : Nat) :
    List String :=
  List.insertionSort (fun a b => a ≤ b)
    (((df.map (fun r => r.copyright)).dedup).filter
      (fun c => decide (min_total_works ≤ copyrightTotal df c)))

/-! ## Traces of consecutive `only`-mode calls -/

/-- Used-set after one `only`-mode artist call. -/
def artistStep (df : List ArtistRow) (p : ArtistParams) (u : List String) (d : Draw) :
    List String :=
  (selectArtistsOnly df p u d).2

/-- Trigger tokens returned by a call outcome (none when the call raised). -/
def okTokens {β : Type} (proj : β → String) : Except SelError (List β) → List String
  | .ok res => res.map proj
  | .error _ => []

/-- Trigger tokens returned by one `only`-mode artist call. -/
def artistTokens (df : List ArtistRow) (p : ArtistParams) (u : List String) (d : Draw) :
    List String :=
  okTokens Prod.fst (selectArtistsOnly df p u d).1

/-- Used-set after one `only`-mode character call. -/
def characterStep (df : List CharacterRow) (p : CharacterParams) (cf : List String)
    (u : List String) (d : Draw) : List String :=
  (selectCharactersOnly df p cf u d).2

/-- Trigger tokens returned by one `only`-mode character call. -/
def characterTokens (df : List CharacterRow) (p : CharacterParams) (cf : List String)
    (u : List String) (d : Draw) : List String :=
  okTokens Prod.fst (selectCharactersOnly df p cf u d).1

/-- Used-set evolution over a list of draws. -/
def traceUsed (step : List String → Draw → List String) :
    List String → List Draw → List String
  | u, [] => u
  | u, d :: ds => traceUsed step (step u d) ds

/-- Used-set at the start of call `m` of a trace. -/
def usedAtCall (step : List String → Draw → List String) (u0 : List String)
    (ds : List Draw) (m : Nat) : List String :=
  traceUsed step u0 (ds.take m)

/-- Tokens returned by call `m` of a trace. -/
def tokensAtCall (step : List String → Draw → List String)
    (res : List String → Draw → List String) (u0 : List String)
    (ds : List Draw) (m : Nat) : List String :=
  res (usedAtCall step u0 ds m) (ds.getD m defaultDraw)

/-- All tokens returned by the calls strictly before call `m`. -/
def tokensBefore (step : List String → Draw → List String)
    (res : List String → Draw → List String) (u0 : List String)
    (ds : List Draw) (m : Nat) : List String :=
  ((List.range m).map (tokensAtCall step res u0 ds)).flatten

/-- Success of every call of a trace. -/
def allOk (step : List String → Draw → List String)
    (ok : List String → Draw → Bool) : List String → List Draw → Bool
  | _, [] => true
  | u, d :: ds => ok u d && allOk step ok (step u d) ds

/-- Success test of one `only`-mode artist call. -/
def artistOk (df : List ArtistRow) (p : ArtistParams) (u : List String) (d : Draw) :
    Bool :=
  (selectArtistsOnly df p u d).1.isOk

/-- Success test of one `only`-mode character call. -/
def characterOk (df : List CharacterRow) (p : CharacterParams) (cf : List String)
    (u : List String) (d : Draw) : Bool :=
  (selectCharactersOnly df p cf u d).1.isOk

/-- Result list of a call outcome (empty when the call raised). -/
def exList {β : Type} : Except SelError (List β) → List β
  | .ok res => res
  | .error _ => []

/-! ## Basic lemmas about the shared sampling machinery -/

theorem sampleIdx_subset {α : Type} {l : List α} {idxs : List Nat} {a : α}
    (h : a ∈ sampleIdx l idxs) : a ∈ l := by
  unfold sampleIdx at h
  obtain ⟨i, _, hi⟩ := List.mem_filterMap.mp h
  exact List.getElem?_mem hi

theorem sampleIdx_length {α : Type} {l : List α} {idxs : List Nat}
    (h : ∀ i ∈ idxs, i < l.length) : (sampleIdx l idxs).length = idxs.length := by
  induction idxs with
  | nil => rfl
  | cons i t ih =>
    have hi : i < l.length := h i (by simp)
    simp only [sampleIdx, List.filterMap_cons, List.getElem?_eq_getElem hi]
    simpa [sampleIdx] using ih (fun j hj => h j (by simp [hj]))

theorem sampleIdx_map_nodup {α β : Type} {f : α → β} {l : List α} {idxs : List Nat}
    (hn : (l.map f).Nodup) (hi : idxs.Nodup) (hr : ∀ i ∈ idxs, i < l.length) :
    ((sampleIdx l idxs).map f).Nodup := by
  induction idxs with
  | nil => simp [sampleIdx]
  | cons i t ih =>
    have hil : i < l.length := hr i (by simp)
    have hrest : ((sampleIdx l t).map f).Nodup :=
      ih (List.Nodup.of_cons hi) (fun j hj => hr j (by simp [hj]))
    simp only [sampleIdx, List.filterMap_cons, List.getElem?_eq_getElem hil,
      List.map_cons, List.nodup_cons]
    refine ⟨?_, hrest⟩
    intro hmem
    obtain ⟨a, ha, hfa⟩ := List.mem_map.mp hmem
    obtain ⟨j, hjt, hj⟩ := List.mem_filterMap.mp ha
    have hjl : j < l.length := hr j (by simp [hjt])
    have hjv : a = l[j] := by
      rw [List.getElem?_eq_getElem hjl] at hj
      exact (Option.some.inj hj).symm
    have hmapi : i < (l.map f).length := by simpa using hil
    have hmapj : j < (l.map f).length := by simpa using hjl
    have hfe : (l.map f)[i] = (l.map f)[j] := by
      rw [List.getElem_map, List.getElem_map, ← hjv]
      exact hfa.symm
    have hij : i = j := (List.Nodup.getElem_inj_iff hn).mp hfe
    exact (List.nodup_cons.mp hi).1 (hij ▸ hjt)

theorem mem_zipWith {α β γ : Type} {f : α → β → γ} {l1 : List α} {l2 : List β} {c : γ}
    (h : c ∈ List.zipWith f l1 l2) : ∃ a ∈ l1, ∃ b ∈ l2, c = f a b := by
  induction l1 generalizing l2 with
  | nil => simp at h
  | cons a t ih =>
    cases l2 with
    | nil => simp at h
    | cons b t2 =>
      simp only [List.zipWith_cons_cons, List.mem_cons] at h
      rcases h with h | h
      · exact ⟨a, by simp, b, by simp, h⟩
      · obtain ⟨a', ha, b', hb, hc⟩ := ih h
        exact ⟨a', by simp [ha], b', by simp [hb], hc⟩

theorem map_fst_zipWith {α β γ δ : Type} (f : α → β) (g : α → δ → γ)
    (l1 : List α) (l2 : List δ) :
    (List.zipWith (fun a b => (f a, g a b)) l1 l2).map Prod.fst
      = (l1.map f).take l2.length := by
  induction l1 generalizing l2 with
  | nil => simp
  | cons a t ih =>
    cases l2 with
    | nil => simp
    | cons b t2 => simp [ih]

theorem roundTo2_hundredth (q : ℚ) : ∃ z : ℤ, roundTo2 q = (z : ℚ) / 100 :=
  ⟨round (q * 100), rfl⟩

theorem roundTo2_bounds {a b q : ℚ} (h1 : a ≤ q) (h2 : q ≤ b) :
    a - 1 / 200 ≤ roundTo2 q ∧ roundTo2 q ≤ b + 1 / 200 := by
  have h := abs_sub_round (q * 100)
  rw [abs_le] at h
  unfold roundTo2
  constructor <;> [linarith [h.1, h.2]; linarith [h.1, h.2]]

theorem roundTo2_zero : roundTo2 0 = 0 := by
  unfold roundTo2
  norm_num

/-! ## Characterizations of the filter/pool stages -/

theorem mem_eligibleArtists {df : List ArtistRow} {w : Nat} {r : ArtistRow} :
    r ∈ eligibleArtists df w ↔ r ∈ df ∧ w ≤ r.count := by
  simp [eligibleArtists, List.mem_filter]

theorem availableArtists_eq_nil {df : List ArtistRow} {w : Nat} {used : List String} :
    availableArtists df w used = [] ↔
      ∀ r ∈ eligibleArtists df w, r.trigger ∈ used := by
  simp [availableArtists, List.filter_eq_nil_iff]

theorem artistPool_eq_nil {df : List ArtistRow} {w : Nat} {used : List String} :
    artistPool df w used = [] ↔ eligibleArtists df w = [] := by
  unfold artistPool
  split_ifs with h
  · exact Iff.rfl
  · constructor
    · intro hc
      exact absurd hc h
    · intro he
      exact absurd (by simp [availableArtists, he]) h

theorem artistPool_subset {df : List ArtistRow} {w : Nat} {used : List String}
    {r : ArtistRow} (h : r ∈ artistPool df w used) : r ∈ eligibleArtists df w := by
  unfold artistPool at h
  split_ifs at h
  · exact h
  · exact (List.mem_filter.mp h).1

theorem mem_eligibleCharacters {df : List CharacterRow} {mt ms : Nat}
    {cf : List String} {r : CharacterRow} :
    r ∈ eligibleCharacters df mt ms cf ↔
      r ∈ df ∧ mt ≤ r.count ∧ ms ≤ r.solo_count ∧ (cf = [] ∨ r.copyright ∈ cf) := by
  unfold eligibleCharacters
  split_ifs with h
  · subst h
    simp [List.mem_filter]
  · simp [List.mem_filter, h]
    tauto

theorem availableCharacters_eq_nil {df : List CharacterRow} {mt ms : Nat}
    {cf used : List String} :
    availableCharacters df mt ms cf used = [] ↔
      ∀ r ∈ eligibleCharacters df mt ms cf, r.trigger ∈ used := by
  simp [availableCharacters, List.filter_eq_nil_iff]

theorem characterPool_eq_nil {df : List CharacterRow} {mt ms : Nat}
    {cf used : List String} :
    characterPool df mt ms cf used = [] ↔ eligibleCharacters df mt ms cf = [] := by
  unfold characterPool
  split_ifs with h
  · exact Iff.rfl
  · constructor
    · intro hc
      exact absurd hc h
    · intro he
      exact absurd (by simp [availableCharacters, he]) h

theorem characterPool_subset {df : List CharacterRow} {mt ms : Nat}
    {cf used : List String} {r : CharacterRow}
    (h : r ∈ characterPool df mt ms cf used) : r ∈ eligibleCharacters df mt ms cf := by
  unfold characterPool at h
  split_ifs at h
  · exact h
  · exact (List.mem_filter.mp h).1

/-! ## Claim theorems (error handling and dispatch) -/

/-- C6: a select call (either mode, either selector) whose effective
parameters satisfy `min_count > max_count` or `min_weight > max_weight`
fails with `InvalidParameterError`; the dataset is not filtered, nothing is
drawn, the used-set is returned unchanged, and no range is clamped (the
returned error is a constant, independent of the dataset and of the draw). -/
theorem c6_invalid_parameter_rejected (df : List ArtistRow) (dfc : List CharacterRow)
    (p : ArtistParams) (q : CharacterParams) (cf used usedc : List String) (d : Draw)
    (hp : p.min_count > p.max_count ∨ p.min_weight > p.max_weight)
    (hq : q.min_count > q.max_count ∨ q.min_weight > q.max_weight) :
    selectArtistsRandom df p d = .error .invalidParameter ∧
      selectArtistsOnly df p used d = (.error .invalidParameter, used) ∧
      selectCharactersRandom dfc q cf d = .error .invalidParameter ∧
      selectCharactersOnly dfc q cf usedc d = (.error .invalidParameter, usedc) := by
  refine ⟨?_, ?_, ?_, ?_⟩
  · unfold selectArtistsRandom
    split_ifs with h1 h2 h3
    · rfl
    · rfl
    all_goals rcases hp with h | h
    all_goals first
      | exact absurd h h1
      | exact absurd h h2
  · unfold selectArtistsOnly
    split_ifs with h1 h2 h3
    · rfl
    · rfl
    all_goals rcases hp with h | h
    all_goals first
      | exact absurd h h1
      | exact absurd h h2
  · unfold selectCharactersRandom
    split_ifs with h1 h2 h3
    · rfl
    · rfl
    all_goals rcases hq with h | h
    all_goals first
      | exact absurd h h1
      | exact absurd h h2
  · unfold selectCharactersOnly
    split_ifs with h1 h2 h3
    · rfl
    · rfl
    all_goals rcases hq with h | h
    all_goals first
      | exact absurd h h1
      | exact absurd h h2

/-- Witness for C6 at a concrete invalid parameter set (`min_count = 1 >
0 = max_count`, the spec's §8 scenario shape). -/
theorem c6_invalid_parameter_rejected_witness :
    selectArtistsRandom [] ⟨1, 0, 0, 0, 0⟩ defaultDraw = .error .invalidParameter ∧
      selectArtistsOnly [] ⟨1, 0, 0, 0, 0⟩ [] defaultDraw = (.error .invalidParameter, []) ∧
      selectCharactersRandom [] ⟨1, 0, 0, 0, 0, 0⟩ [] defaultDraw
        = .error .invalidParameter ∧
      selectCharactersOnly [] ⟨1, 0, 0, 0, 0, 0⟩ [] [] defaultDraw
        = (.error .invalidParameter, []) :=
  c6_invalid_parameter_rejected [] [] ⟨1, 0, 0, 0, 0⟩ ⟨1, 0, 0, 0, 0, 0⟩ [] [] []
    defaultDraw (Or.inl (by norm_num)) (Or.inl (by norm_num))

/-- C7: two calls that differ only in the `mode` argument passed at the
call site behave identically — same outcome and same used-set — because
the dispatch reads the effective mode fresh from the configuration and
never consults the passed argument. -/
theorem c7_mode_argument_ignored (df : List ArtistRow) (dfc : List CharacterRow)
    (cfg : ArtistConfig) (cfgc : CharacterConfig) (a : ArtistArgs) (ac : CharacterArgs)
    (m₁ m₂ : Option String) (used usedc : List String) (d : Draw) :
    select_artists df cfg { a with mode := m₁ } used d
        = select_artists df cfg { a with mode := m₂ } used d ∧
      select_characters dfc cfgc { ac with mode := m₁ } usedc d
        = select_characters dfc cfgc { ac with mode := m₂ } usedc d :=
  ⟨rfl, rfl⟩

/-- C8: `reset()` leaves an empty used-set whatever the previous state
(including an already-empty or never-created one), and is idempotent.  It
is a total function returning the new state, so it returns nothing else
and cannot fail. -/
theorem c8_reset_clears_and_idempotent (s t : Option (List String)) :
    usedTokens (reset_used_artists s) = [] ∧
      reset_used_artists (reset_used_artists s) = reset_used_artists s ∧
      usedTokens (reset_used_characters t) = [] ∧
      reset_used_characters (reset_used_characters t) = reset_used_characters t := by
  cases s <;> cases t <;>
    simp [reset_used_artists, reset_used_characters, usedTokens]

/-- C3: with valid numeric parameters, an `only`-mode call raises
`NoEligibleRecordsError` exactly when the threshold-eligible set is empty;
when it is non-empty but fully used, the call instead clears the used-set
(the state after the call holds only this call's tokens) and draws from
the full eligible pool. -/
theorem c3_only_mode_error_iff_no_eligible (df : List ArtistRow)
    (dfc : List CharacterRow) (p : ArtistParams) (q : CharacterParams)
    (cf used usedc : List String) (d e : Draw)
    (hp1 : p.min_count ≤ p.max_count) (hp2 : p.min_weight ≤ p.max_weight)
    (hq1 : q.min_count ≤ q.max_count) (hq2 : q.min_weight ≤ q.max_weight) :
    ((selectArtistsOnly df p used d).1 = .error .noEligibleRecords ↔
        eligibleArtists df p.min_works = []) ∧
      (eligibleArtists df p.min_works ≠ [] →
        availableArtists df p.min_works used = [] →
        selectArtistsOnly df p used d =
          (.ok (mkResult (fun r w => (r.trigger, w)) (eligibleArtists df p.min_works) d),
            (mkResult (fun r w => (r.trigger, w))
              (eligibleArtists df p.min_works) d).map Prod.fst)) ∧
      ((selectCharactersOnly dfc q cf usedc e).1 = .error .noEligibleRecords ↔
        eligibleCharacters dfc q.min_total_works q.min_solo_works cf = []) ∧
      (eligibleCharacters dfc q.min_total_works q.min_solo_works cf ≠ [] →
        availableCharacters dfc q.min_total_works q.min_solo_works cf usedc = [] →
        selectCharactersOnly dfc q cf usedc e =
          (.ok (mkResult (fun r w => (r.trigger, w, r.core_tags))
              (eligibleCharacters dfc q.min_total_works q.min_solo_works cf) e),
            (mkResult (fun r w => (r.trigger, w, r.core_tags))
              (eligibleCharacters dfc q.min_total_works q.min_solo_works cf) e).map
              Prod.fst)) := by
  refine ⟨?_, ?_, ?_, ?_⟩
  · unfold selectArtistsOnly
    split_ifs with h1 h2 h3
    · exact absurd h1 (not_lt.mpr hp1)
    · exact absurd h2 (not_lt.mpr hp2)
    · simp [artistPool_eq_nil.mp h3]
    · constructor
      · intro hh
        exact absurd hh (by simp)
      · intro hh
        exact absurd (artistPool_eq_nil.mpr hh) h3
  · intro he hav
    unfold selectArtistsOnly
    split_ifs with h1 h2 h3
    · exact absurd h1 (not_lt.mpr hp1)
    · exact absurd h2 (not_lt.mpr hp2)
    · exact absurd (artistPool_eq_nil.mp h3) he
    · unfold artistPool artistUsedAfterReset
      rw [if_pos hav, if_pos hav]
      simp
  · unfold selectCharactersOnly
    split_ifs with h1 h2 h3
    · exact absurd h1 (not_lt.mpr hq1)
    · exact absurd h2 (not_lt.mpr hq2)
    · simp [characterPool_eq_nil.mp h3]
    · constructor
      · intro hh
        exact absurd hh (by simp)
      · intro hh
        exact absurd (characterPool_eq_nil.mpr hh) h3
  · intro he hav
    unfold selectCharactersOnly
    split_ifs with h1 h2 h3
    · exact absurd h1 (not_lt.mpr hq1)
    · exact absurd h2 (not_lt.mpr hq2)
    · exact absurd (characterPool_eq_nil.mp h3) he
    · unfold characterPool characterUsedAfterReset
      rw [if_pos hav, if_pos hav]
      simp

/-- Witness for C3 at a concrete input (empty datasets, zero parameters). -/
theorem c3_only_mode_error_iff_no_eligible_witness :
    ((selectArtistsOnly [] ⟨0, 0, 0, 0, 0⟩ [] defaultDraw).1 = .error .noEligibleRecords ↔
        eligibleArtists [] 0 = []) ∧
      (eligibleArtists [] 0 ≠ [] →
        availableArtists [] 0 [] = [] →
        selectArtistsOnly [] ⟨0, 0, 0, 0, 0⟩ [] defaultDraw =
          (.ok (mkResult (fun r w => (r.trigger, w)) (eligibleArtists [] 0) defaultDraw),
            (mkResult (fun r w => (r.trigger, w))
              (eligibleArtists [] 0) defaultDraw).map Prod.fst)) ∧
      ((selectCharactersOnly [] ⟨0, 0, 0, 0, 0, 0⟩ [] [] defaultDraw).1
          = .error .noEligibleRecords ↔
        eligibleCharacters [] 0 0 [] = []) ∧
      (eligibleCharacters [] 0 0 [] ≠ [] →
        availableCharacters [] 0 0 [] [] = [] →
        selectCharactersOnly [] ⟨0, 0, 0, 0, 0, 0⟩ [] [] defaultDraw =
          (.ok (mkResult (fun r w => (r.trigger, w, r.core_tags))
              (eligibleCharacters [] 0 0 []) defaultDraw),
            (mkResult (fun r w => (r.trigger, w, r.core_tags))
              (eligibleCharacters [] 0 0 []) defaultDraw).map Prod.fst)) :=
  c3_only_mode_error_iff_no_eligible [] [] ⟨0, 0, 0, 0, 0⟩ ⟨0, 0, 0, 0, 0, 0⟩ [] [] []
    defaultDraw defaultDraw (by decide) (by decide) (by decide) (by decide)

/-- C10: an `only`-mode call that finds no threshold-eligible record at all
still mutates state — it clears the used-set (the exhaustion-reset branch
runs first) and only then raises `NoEligibleRecordsError`, so a retry after
loosening thresholds starts from an empty used-set. -/
theorem c10_failing_only_call_clears_used (df : List ArtistRow)
    (dfc : List CharacterRow) (p : ArtistParams) (q : CharacterParams)
    (cf used usedc : List String) (d e : Draw)
    (hp1 : p.min_count ≤ p.max_count) (hp2 : p.min_weight ≤ p.max_weight)
    (hq1 : q.min_count ≤ q.max_count) (hq2 : q.min_weight ≤ q.max_weight)
    (he : eligibleArtists df p.min_works = [])
    (hec : eligibleCharacters dfc q.min_total_works q.min_solo_works cf = []) :
    selectArtistsOnly df p used d = (.error .noEligibleRecords, []) ∧
      selectCharactersOnly dfc q cf usedc e = (.error .noEligibleRecords, []) := by
  constructor
  · unfold selectArtistsOnly
    split_ifs with h1 h2 h3
    · exact absurd h1 (not_lt.mpr hp1)
    · exact absurd h2 (not_lt.mpr hp2)
    · unfold artistUsedAfterReset availableArtists
      rw [he]
      simp
    · exact absurd (artistPool_eq_nil.mpr he) h3
  · unfold selectCharactersOnly
    split_ifs with h1 h2 h3
    · exact absurd h1 (not_lt.mpr hq1)
    · exact absurd h2 (not_lt.mpr hq2)
    · unfold characterUsedAfterReset availableCharacters
      rw [hec]
      simp
    · exact absurd (characterPool_eq_nil.mpr hec) h3

/-- Witness for C10: one-row datasets whose rows miss the thresholds, and a
non-empty used-set that the failing call visibly clears. -/
theorem c10_failing_only_call_clears_used_witness :
    selectArtistsOnly [⟨"a", "t", 5, "u"⟩] ⟨1, 1, 0, 0, 10⟩ ["x"] defaultDraw
        = (.error .noEligibleRecords, []) ∧
      selectCharactersOnly [⟨"c", "cp", "s", 5, 5, "u", []⟩] ⟨1, 1, 0, 0, 10, 10⟩ []
          ["y"] defaultDraw
        = (.error .noEligibleRecords, []) :=
  c10_failing_only_call_clears_used [⟨"a", "t", 5, "u"⟩] [⟨"c", "cp", "s", 5, 5, "u", []⟩]
    ⟨1, 1, 0, 0, 10⟩ ⟨1, 1, 0, 0, 10, 10⟩ [] ["x"] ["y"] defaultDraw defaultDraw
    (by decide) (by decide) (by decide) (by decide) (by decide) (by decide)

/-! ## Result length (claim C2) -/

theorem mkResult_length {α β : Type} (mk : α → ℚ → β) (pool : List α) (d : Draw)
    (hr : ∀ i ∈ d.idxs, i < pool.length)
    (hi : min d.k pool.length ≤ d.idxs.length)
    (hw : min d.k pool.length ≤ d.ws.length) :
    (mkResult mk pool d).length = min d.k pool.length := by
  unfold mkResult
  rw [List.length_zipWith, sampleIdx_length (fun i h => hr i (List.mem_of_mem_take h)),
    List.length_take, List.length_map]
  omega

/-- Counterexample to C2 as stated: a valid parameter set with
`min_count = max_count = 2`, a valid draw (`randint` returned 2), and a
single eligible record — the call succeeds but returns 1 < `min_count`
items, because the code clamps the requested count to the pool size. -/
theorem c2_counterexample_length_below_min :
    (2 : Nat) ≤ 2 ∧ (0 : ℚ) ≤ 0 ∧
      DrawValid ⟨2, [0], [0]⟩ 2 2 0 0 (eligibleArtists [⟨"a", "t", 5, "u"⟩] 0).length ∧
      selectArtistsRandom [⟨"a", "t", 5, "u"⟩] ⟨2, 2, 0, 0, 0⟩ ⟨2, [0], [0]⟩
        = .ok [("t", 0)] ∧
      ¬ (2 : Nat) ≤ [("t", (0 : ℚ))].length := by
  refine ⟨by norm_num, by norm_num, by decide, ?_, by decide⟩
  unfold selectArtistsRandom mkResult sampleIdx eligibleArtists
  norm_num [roundTo2_zero, List.filterMap_cons]

/-- C2 (amended): for valid parameters and a valid draw, a `random`-mode
call on a non-empty eligible pool succeeds and its result length `L`
satisfies `min (min_count, |eligible|) ≤ L ≤ max_count` and
`L ≤ |eligible|`; the stated lower bound `min_count ≤ L` holds only when
the eligible pool has at least `min_count` records. -/
theorem c2_result_length_bounds (df : List ArtistRow) (dfc : List CharacterRow)
    (p : ArtistParams) (q : CharacterParams) (cf : List String) (d e : Draw)
    (hp1 : p.min_count ≤ p.max_count) (hp2 : p.min_weight ≤ p.max_weight)
    (hq1 : q.min_count ≤ q.max_count) (hq2 : q.min_weight ≤ q.max_weight)
    (hda : DrawValid d p.min_count p.max_count p.min_weight p.max_weight
      (eligibleArtists df p.min_works).length)
    (hdc : DrawValid e q.min_count q.max_count q.min_weight q.max_weight
      (eligibleCharacters dfc q.min_total_works q.min_solo_works cf).length)
    (hne : eligibleArtists df p.min_works ≠ [])
    (hnec : eligibleCharacters dfc q.min_total_works q.min_solo_works cf ≠ []) :
    ((selectArtistsRandom df p d).isOk = true ∧
      min p.min_count (eligibleArtists df p.min_works).length
        ≤ (exList (selectArtistsRandom df p d)).length ∧
      (exList (selectArtistsRandom df p d)).length ≤ p.max_count ∧
      (exList (selectArtistsRandom df p d)).length
        ≤ (eligibleArtists df p.min_works).length) ∧
    ((selectCharactersRandom dfc q cf e).isOk = true ∧
      min q.min_count (eligibleCharacters dfc q.min_total_works q.min_solo_works cf).length
        ≤ (exList (selectCharactersRandom dfc q cf e)).length ∧
      (exList (selectCharactersRandom dfc q cf e)).length ≤ q.max_count ∧
      (exList (selectCharactersRandom dfc q cf e)).length
        ≤ (eligibleCharacters dfc q.min_total_works q.min_solo_works cf).length) := by
  obtain ⟨hk1, hk2, hnd, hrange, hil, hwl, hws⟩ := hda
  obtain ⟨gk1, gk2, gnd, grange, gil, gwl, gws⟩ := hdc
  constructor
  · unfold selectArtistsRandom
    rw [if_neg (not_lt.mpr hp1), if_neg (not_lt.mpr hp2), if_neg hne]
    refine ⟨rfl, ?_⟩
    unfold exList
    rw [mkResult_length _ _ _ hrange hil hwl]
    omega
  · unfold selectCharactersRandom
    rw [if_neg (not_lt.mpr hq1), if_neg (not_lt.mpr hq2), if_neg hnec]
    refine ⟨rfl, ?_⟩
    unfold exList
    rw [mkResult_length _ _ _ grange gil gwl]
    omega

/-- Witness for the amended C2 at a concrete input (one eligible record,
`min_count = max_count = 1`, `randint` returned 1). -/
theorem c2_result_length_bounds_witness :
    (1 : Nat) ≤ 1 ∧ (0 : ℚ) ≤ 0 ∧
      DrawValid ⟨1, [0], [0]⟩ 1 1 0 0 (eligibleArtists [⟨"a", "t", 5, "u"⟩] 0).length ∧
      DrawValid ⟨1, [0], [0]⟩ 1 1 0 0
        (eligibleCharacters [⟨"c", "cp", "s", 5, 5, "u", []⟩] 0 0 []).length ∧
      (((selectArtistsRandom [⟨"a", "t", 5, "u"⟩] ⟨1, 1, 0, 0, 0⟩ ⟨1, [0], [0]⟩).isOk
            = true ∧
          min 1 (eligibleArtists [⟨"a", "t", 5, "u"⟩] 0).length
            ≤ (exList (selectArtistsRandom [⟨"a", "t", 5, "u"⟩] ⟨1, 1, 0, 0, 0⟩
                ⟨1, [0], [0]⟩)).length ∧
          (exList (selectArtistsRandom [⟨"a", "t", 5, "u"⟩] ⟨1, 1, 0, 0, 0⟩
              ⟨1, [0], [0]⟩)).length ≤ 1 ∧
          (exList (selectArtistsRandom [⟨"a", "t", 5, "u"⟩] ⟨1, 1, 0, 0, 0⟩
              ⟨1, [0], [0]⟩)).length ≤ (eligibleArtists [⟨"a", "t", 5, "u"⟩] 0).length) ∧
        ((selectCharactersRandom [⟨"c", "cp", "s", 5, 5, "u", []⟩] ⟨1, 1, 0, 0, 0, 0⟩ []
              ⟨1, [0], [0]⟩).isOk = true ∧
          min 1 (eligibleCharacters [⟨"c", "cp", "s", 5, 5, "u", []⟩] 0 0 []).length
            ≤ (exList (selectCharactersRandom [⟨"c", "cp", "s", 5, 5, "u", []⟩]
                ⟨1, 1, 0, 0, 0, 0⟩ [] ⟨1, [0], [0]⟩)).length ∧
          (exList (selectCharactersRandom [⟨"c", "cp", "s", 5, 5, "u", []⟩]
              ⟨1, 1, 0, 0, 0, 0⟩ [] ⟨1, [0], [0]⟩)).length ≤ 1 ∧
          (exList (selectCharactersRandom [⟨"c", "cp", "s", 5, 5, "u", []⟩]
              ⟨1, 1, 0, 0, 0, 0⟩ [] ⟨1, [0], [0]⟩)).length
            ≤ (eligibleCharacters [⟨"c", "cp", "s", 5, 5, "u", []⟩] 0 0 []).length)) :=
  ⟨by norm_num, by norm_num, by decide, by decide,
    c2_result_length_bounds [⟨"a", "t", 5, "u"⟩] [⟨"c", "cp", "s", 5, 5, "u", []⟩]
      ⟨1, 1, 0, 0, 0⟩ ⟨1, 1, 0, 0, 0, 0⟩ [] ⟨1, [0], [0]⟩ ⟨1, [0], [0]⟩
      (by norm_num) (by norm_num) (by norm_num) (by norm_num)
      (by decide) (by decide) (by decide) (by decide)⟩

/-! ## Result weights (claim C4) -/

theorem mem_mkResult {α β : Type} {mk : α → ℚ → β} {pool : List α} {d : Draw} {x : β}
    (h : x ∈ mkResult mk pool d) :
    ∃ r ∈ pool, ∃ u ∈ d.ws, x = mk r (roundTo2 u) := by
  obtain ⟨a, ha, b, hb, rfl⟩ := mem_zipWith h
  obtain ⟨u, hu, rfl⟩ := List.mem_map.mp hb
  exact ⟨a, sampleIdx_subset ha, u, hu, rfl⟩

theorem roundTo2_den (q : ℚ) : (roundTo2 q * 100).den = 1 := by
  unfold roundTo2
  rw [div_mul_cancel₀]
  · exact Rat.den_intCast _
  · norm_num

/-- Counterexample to C4 as stated: with `min_weight = 0.113`,
`max_weight = 0.115` and a uniform draw of `0.114` (inside the range), the
returned weight `round(0.114, 2) = 0.11` falls below `min_weight`. -/
theorem c4_counterexample_weight_below_min :
    (113 / 1000 : ℚ) ≤ 115 / 1000 ∧
      DrawValid ⟨1, [0], [114 / 1000]⟩ 1 1 (113 / 1000) (115 / 1000)
        (eligibleArtists [⟨"a", "t", 5, "u"⟩] 0).length ∧
      selectArtistsRandom [⟨"a", "t", 5, "u"⟩] ⟨1, 1, 113 / 1000, 115 / 1000, 0⟩
          ⟨1, [0], [114 / 1000]⟩
        = .ok [("t", 11 / 100)] ∧
      ¬ (113 / 1000 : ℚ) ≤ 11 / 100 := by
  refine ⟨by norm_num, ?_, ?_, by norm_num⟩
  · unfold DrawValid
    refine ⟨le_refl 1, le_refl 1, by decide, by decide, by decide, by decide, ?_⟩
    intro w hw
    simp only [List.mem_singleton] at hw
    subst hw
    constructor <;> norm_num
  · unfold selectArtistsRandom mkResult sampleIdx eligibleArtists
    norm_num [List.filterMap_cons]
    rw [roundTo2, round_eq]
    norm_num

/-- C4 (amended): every returned weight is a multiple of 1/100 (at most two
decimal digits) and lies within half a rounding step of the configured
range: `min_weight - 1/200 ≤ w ≤ max_weight + 1/200`.  The exact bounds
`min_weight ≤ w ≤ max_weight` claimed by the spec can be violated by the
final rounding, as `c4_counterexample_weight_below_min` shows. -/
theorem c4_weights_rounded_and_near_range (df : List ArtistRow)
    (dfc : List CharacterRow) (p : ArtistParams) (q : CharacterParams)
    (cf : List String) (d e : Draw)
    (hda : DrawValid d p.min_count p.max_count p.min_weight p.max_weight
      (eligibleArtists df p.min_works).length)
    (hdc : DrawValid e q.min_count q.max_count q.min_weight q.max_weight
      (eligibleCharacters dfc q.min_total_works q.min_solo_works cf).length) :
    (∀ x ∈ exList (selectArtistsRandom df p d),
      (x.2 * 100).den = 1 ∧
        p.min_weight - 1 / 200 ≤ x.2 ∧ x.2 ≤ p.max_weight + 1 / 200) ∧
      (∀ x ∈ exList (selectCharactersRandom dfc q cf e),
        (x.2.1 * 100).den = 1 ∧
          q.min_weight - 1 / 200 ≤ x.2.1 ∧ x.2.1 ≤ q.max_weight + 1 / 200) := by
  constructor
  · intro x hx
    unfold selectArtistsRandom at hx
    split_ifs at hx with h1 h2 h3 <;> try simp [exList] at hx
    obtain ⟨r, _, u, hu, rfl⟩ := mem_mkResult hx
    obtain ⟨hu1, hu2⟩ := hda.2.2.2.2.2.2 u hu
    exact ⟨roundTo2_den u, (roundTo2_bounds hu1 hu2).1, (roundTo2_bounds hu1 hu2).2⟩
  · intro x hx
    unfold selectCharactersRandom at hx
    split_ifs at hx with h1 h2 h3 <;> try simp [exList] at hx
    obtain ⟨r, _, u, hu, rfl⟩ := mem_mkResult hx
    obtain ⟨hu1, hu2⟩ := hdc.2.2.2.2.2.2 u hu
    exact ⟨roundTo2_den u, (roundTo2_bounds hu1 hu2).1, (roundTo2_bounds hu1 hu2).2⟩

/-- Witness for the amended C4 at a concrete input, specialized to the
concrete returned element of each call. -/
theorem c4_weights_rounded_and_near_range_witness :
    DrawValid ⟨1, [0], [0]⟩ 1 1 0 0 (eligibleArtists [⟨"a", "t", 5, "u"⟩] 0).length ∧
      DrawValid ⟨1, [0], [0]⟩ 1 1 0 0
        (eligibleCharacters [⟨"c", "cp", "s", 5, 5, "u", []⟩] 0 0 []).length ∧
      ((("t", (0 : ℚ)).2 * 100).den = 1 ∧
        (0 : ℚ) - 1 / 200 ≤ ("t", (0 : ℚ)).2 ∧ ("t", (0 : ℚ)).2 ≤ (0 : ℚ) + 1 / 200) ∧
      ((("s", (0 : ℚ), ([] : List String)).2.1 * 100).den = 1 ∧
        (0 : ℚ) - 1 / 200 ≤ ("s", (0 : ℚ), ([] : List String)).2.1 ∧
        ("s", (0 : ℚ), ([] : List String)).2.1 ≤ (0 : ℚ) + 1 / 200) :=
  ⟨by decide, by decide,
    (c4_weights_rounded_and_near_range [⟨"a", "t", 5, "u"⟩]
      [⟨"c", "cp", "s", 5, 5, "u", []⟩] ⟨1, 1, 0, 0, 0⟩ ⟨1, 1, 0, 0, 0, 0⟩ []
      ⟨1, [0], [0]⟩ ⟨1, [0], [0]⟩ (by decide) (by decide)).1 ("t", 0)
      (by unfold selectArtistsRandom exList mkResult sampleIdx eligibleArtists
          norm_num [List.filterMap_cons, roundTo2_zero]),
    (c4_weights_rounded_and_near_range [⟨"a", "t", 5, "u"⟩]
      [⟨"c", "cp", "s", 5, 5, "u", []⟩] ⟨1, 1, 0, 0, 0⟩ ⟨1, 1, 0, 0, 0, 0⟩ []
      ⟨1, [0], [0]⟩ ⟨1, [0], [0]⟩ (by decide) (by decide)).2 ("s", 0, [])
      (by unfold selectCharactersRandom exList mkResult sampleIdx eligibleCharacters
          norm_num [List.filterMap_cons, roundTo2_zero])⟩

/-! ## Trigger uniqueness within one call (claim C5) -/

theorem eligibleArtists_sublist (df : List ArtistRow) (w : Nat) :
    (eligibleArtists df w).Sublist df :=
  List.filter_sublist df

theorem artistPool_sublist (df : List ArtistRow) (w : Nat) (used : List String) :
    (artistPool df w used).Sublist df := by
  unfold artistPool availableArtists
  split_ifs
  · exact List.filter_sublist df
  · exact (List.filter_sublist _).trans (List.filter_sublist df)

theorem eligibleCharacters_sublist (df : List CharacterRow) (mt ms : Nat)
    (cf : List String) : (eligibleCharacters df mt ms cf).Sublist df := by
  unfold eligibleCharacters
  split_ifs
  · exact List.filter_sublist df
  · exact (List.filter_sublist _).trans (List.filter_sublist df)

theorem characterPool_sublist (df : List CharacterRow) (mt ms : Nat)
    (cf used : List String) : (characterPool df mt ms cf used).Sublist df := by
  unfold characterPool availableCharacters
  split_ifs
  · exact eligibleCharacters_sublist df mt ms cf
  · exact (List.filter_sublist _).trans (eligibleCharacters_sublist df mt ms cf)

theorem mkResult_map_fst_nodup {α β γ : Type} (f : α → β) (g : α → ℚ → γ)
    {pool : List α} {d : Draw}
    (hp : (pool.map f).Nodup) (hn : d.idxs.Nodup)
    (hr : ∀ i ∈ d.idxs, i < pool.length) :
    ((mkResult (fun r w => (f r, g r w)) pool d).map Prod.fst).Nodup := by
  unfold mkResult
  rw [map_fst_zipWith]
  refine List.Nodup.sublist (List.take_sublist _ _) ?_
  exact sampleIdx_map_nodup hp (List.Nodup.sublist (List.take_sublist _ _) hn)
    (fun i h => hr i (List.mem_of_mem_take h))

/-- Counterexample to C5 as stated: a dataset whose two rows share the
trigger value `"t"`; a valid draw samples both (distinct) rows and the
result repeats the trigger token. -/
theorem c5_counterexample_duplicate_triggers :
    DrawValid ⟨2, [0, 1], [0, 0]⟩ 2 2 0 0
      (eligibleArtists [⟨"a", "t", 5, "u"⟩, ⟨"b", "t", 5, "v"⟩] 0).length ∧
      selectArtistsRandom [⟨"a", "t", 5, "u"⟩, ⟨"b", "t", 5, "v"⟩] ⟨2, 2, 0, 0, 0⟩
          ⟨2, [0, 1], [0, 0]⟩
        = .ok [("t", 0), ("t", 0)] ∧
      ¬ ([("t", (0 : ℚ)), ("t", 0)].map Prod.fst).Nodup := by
  refine ⟨by decide, ?_, by decide⟩
  unfold selectArtistsRandom mkResult sampleIdx eligibleArtists
  norm_num [List.filterMap_cons, roundTo2_zero]
  intro h
  simp at h

/-- C5 (amended): within one `select()` call (either mode, either
selector) the drawn row positions are distinct, so whenever the dataset's
`trigger` column contains no duplicate value, no trigger token repeats in
the result.  On datasets with duplicated trigger values a single call can
repeat a token, as `c5_counterexample_duplicate_triggers` shows. -/
theorem c5_result_triggers_nodup (df : List ArtistRow) (dfc : List CharacterRow)
    (p : ArtistParams) (q : CharacterParams) (cf used usedc : List String)
    (d e f g : Draw)
    (hA : (df.map ArtistRow.trigger).Nodup)
    (hC : (dfc.map CharacterRow.trigger).Nodup)
    (hd1 : DrawValid d p.min_count p.max_count p.min_weight p.max_weight
      (eligibleArtists df p.min_works).length)
    (hd2 : DrawValid e p.min_count p.max_count p.min_weight p.max_weight
      (artistPool df p.min_works used).length)
    (hd3 : DrawValid f q.min_count q.max_count q.min_weight q.max_weight
      (eligibleCharacters dfc q.min_total_works q.min_solo_works cf).length)
    (hd4 : DrawValid g q.min_count q.max_count q.min_weight q.max_weight
      (characterPool dfc q.min_total_works q.min_solo_works cf usedc).length) :
    ((exList (selectArtistsRandom df p d)).map Prod.fst).Nodup ∧
      ((exList (selectArtistsOnly df p used e).1).map Prod.fst).Nodup ∧
      ((exList (selectCharactersRandom dfc q cf f)).map Prod.fst).Nodup ∧
      ((exList (selectCharactersOnly dfc q cf usedc g).1).map Prod.fst).Nodup := by
  refine ⟨?_, ?_, ?_, ?_⟩
  · unfold selectArtistsRandom
    split_ifs <;> try simp [exList]
    exact mkResult_map_fst_nodup ArtistRow.trigger (fun _ w => w)
      (List.Nodup.sublist (List.Sublist.map _ (eligibleArtists_sublist df p.min_works)) hA)
      hd1.2.2.1 hd1.2.2.2.1
  · unfold selectArtistsOnly
    split_ifs <;> try simp [exList]
    exact mkResult_map_fst_nodup ArtistRow.trigger (fun _ w => w)
      (List.Nodup.sublist (List.Sublist.map _ (artistPool_sublist df p.min_works used)) hA)
      hd2.2.2.1 hd2.2.2.2.1
  · unfold selectCharactersRandom
    split_ifs <;> try simp [exList]
    exact mkResult_map_fst_nodup CharacterRow.trigger (fun r w => (w, r.core_tags))
      (List.Nodup.sublist
        (List.Sublist.map _ (eligibleCharacters_sublist dfc q.min_total_works
          q.min_solo_works cf)) hC)
      hd3.2.2.1 hd3.2.2.2.1
  · unfold selectCharactersOnly
    split_ifs <;> try simp [exList]
    exact mkResult_map_fst_nodup CharacterRow.trigger (fun r w => (w, r.core_tags))
      (List.Nodup.sublist
        (List.Sublist.map _ (characterPool_sublist dfc q.min_total_works
          q.min_solo_works cf usedc)) hC)
      hd4.2.2.1 hd4.2.2.2.1

/-- Witness for the amended C5 at a concrete input. -/
theorem c5_result_triggers_nodup_witness :
    (([⟨"a", "t", 5, "u"⟩] : List ArtistRow).map ArtistRow.trigger).Nodup ∧
      (([⟨"c", "cp", "s", 5, 5, "u", []⟩] : List CharacterRow).map
        CharacterRow.trigger).Nodup ∧
      DrawValid ⟨1, [0], [0]⟩ 1 1 0 0 (eligibleArtists [⟨"a", "t", 5, "u"⟩] 0).length ∧
      DrawValid ⟨1, [0], [0]⟩ 1 1 0 0 (artistPool [⟨"a", "t", 5, "u"⟩] 0 []).length ∧
      DrawValid ⟨1, [0], [0]⟩ 1 1 0 0
        (eligibleCharacters [⟨"c", "cp", "s", 5, 5, "u", []⟩] 0 0 []).length ∧
      DrawValid ⟨1, [0], [0]⟩ 1 1 0 0
        (characterPool [⟨"c", "cp", "s", 5, 5, "u", []⟩] 0 0 [] []).length ∧
      (((exList (selectArtistsRandom [⟨"a", "t", 5, "u"⟩] ⟨1, 1, 0, 0, 0⟩
          ⟨1, [0], [0]⟩)).map Prod.fst).Nodup ∧
        ((exList (selectArtistsOnly [⟨"a", "t", 5, "u"⟩] ⟨1, 1, 0, 0, 0⟩ []
          ⟨1, [0], [0]⟩).1).map Prod.fst).Nodup ∧
        ((exList (selectCharactersRandom [⟨"c", "cp", "s", 5, 5, "u", []⟩]
          ⟨1, 1, 0, 0, 0, 0⟩ [] ⟨1, [0], [0]⟩)).map Prod.fst).Nodup ∧
        ((exList (selectCharactersOnly [⟨"c", "cp", "s", 5, 5, "u", []⟩]
          ⟨1, 1, 0, 0, 0, 0⟩ [] [] ⟨1, [0], [0]⟩).1).map Prod.fst).Nodup) :=
  ⟨by decide, by decide, by decide, by decide, by decide, by decide,
    c5_result_triggers_nodup [⟨"a", "t", 5, "u"⟩] [⟨"c", "cp", "s", 5, 5, "u", []⟩]
      ⟨1, 1, 0, 0, 0⟩ ⟨1, 1, 0, 0, 0, 0⟩ [] [] []
      ⟨1, [0], [0]⟩ ⟨1, [0], [0]⟩ ⟨1, [0], [0]⟩ ⟨1, [0], [0]⟩
      (by decide) (by decide) (by decide) (by decide) (by decide) (by decide)⟩

/-! ## Copyright catalog (claim C9) -/

/-- C9: `get_available_copyrights` returns, sorted lexicographically
ascending and without duplicates, exactly the copyright names occurring in
the dataset whose per-copyright aggregate `count` meets the threshold.  It
is a pure function of the dataset and the threshold alone — it takes no
used-set and returns no new state, so it can touch neither. -/
theorem c9_available_copyrights_sorted_complete (df : List CharacterRow)
    (min_total_works : Nat) :
    List.Sorted (fun a b => a ≤ b) (get_available_copyrights df min_total_works) ∧
      (get_available_copyrights df min_total_works).Nodup ∧
      ∀ c : String, c ∈ get_available_copyrights df min_total_works ↔
        (c ∈ df.map CharacterRow.copyright ∧ min_total_works ≤ copyrightTotal df c) := by
  refine ⟨List.sorted_insertionSort _ _, ?_, ?_⟩
  · exact (List.perm_insertionSort _ _).symm.nodup
      (List.Nodup.filter _ (List.nodup_dedup _))
  · intro c
    unfold get_available_copyrights
    rw [(List.perm_insertionSort _ _).mem_iff]
    simp [List.mem_filter, List.mem_dedup]

/-! ## Generic trace lemmas for the exhaustion state machine (claim C1) -/

theorem traceUsed_append (step : List String → Draw → List String)
    (u : List String) (l1 l2 : List Draw) :
    traceUsed step u (l1 ++ l2) = traceUsed step (traceUsed step u l1) l2 := by
  induction l1 generalizing u with
  | nil => rfl
  | cons d t ih => simp [traceUsed, ih]

theorem usedAtCall_succ (step : List String → Draw → List String) (u0 : List String)
    (ds : List Draw) (m : Nat) (hm : m < ds.length) :
    usedAtCall step u0 ds (m + 1)
      = step (usedAtCall step u0 ds m) (ds.getD m defaultDraw) := by
  unfold usedAtCall
  rw [List.take_succ, traceUsed_append, List.getElem?_eq_getElem hm]
  simp [traceUsed, List.getD_eq_getElem?_getD, List.getElem?_eq_getElem hm]

theorem tokensBefore_succ (step res : List String → Draw → List String)
    (u0 : List String) (ds : List Draw) (m : Nat) :
    tokensBefore step res u0 ds (m + 1)
      = tokensBefore step res u0 ds m ++ tokensAtCall step res u0 ds m := by
  unfold tokensBefore
  rw [List.range_succ]
  simp

theorem usedAtCall_mono (step : List String → Draw → List String)
    (elig : List String)
    (H1 : ∀ u d, (¬ ∀ x ∈ elig, x ∈ u) → ∀ x ∈ u, x ∈ step u d)
    (u0 : List String) (ds : List Draw) (t : String) :
    ∀ n a, a + n ≤ ds.length →
      (∀ k, a ≤ k → k < a + n → ¬ ∀ x ∈ elig, x ∈ usedAtCall step u0 ds k) →
      t ∈ usedAtCall step u0 ds a → t ∈ usedAtCall step u0 ds (a + n) := by
  intro n
  induction n with
  | zero => exact fun a _ _ h => h
  | succ n ih =>
    intro a hlen hne ht
    have h1 : t ∈ usedAtCall step u0 ds (a + n) :=
      ih a (by omega) (fun k hk1 hk2 => hne k hk1 (by omega)) ht
    have hlt : a + n < ds.length := by omega
    rw [show a + (n + 1) = (a + n) + 1 by omega, usedAtCall_succ step u0 ds (a + n) hlt]
    exact H1 _ _ (hne (a + n) (by omega) (by omega)) t h1

theorem usedAtCall_subset_tokensBefore (step res : List String → Draw → List String)
    (H4 : ∀ u d, ∀ x ∈ step u d, x ∈ u ∨ x ∈ res u d) (ds : List Draw) :
    ∀ m, m ≤ ds.length →
      ∀ x ∈ usedAtCall step [] ds m, x ∈ tokensBefore step res [] ds m := by
  intro m
  induction m with
  | zero =>
    intro _ x hx
    simp [usedAtCall, traceUsed] at hx
  | succ m ih =>
    intro hm x hx
    have hlt : m < ds.length := by omega
    rw [usedAtCall_succ _ _ _ _ hlt] at hx
    rw [tokensBefore_succ]
    rcases H4 _ _ x hx with h | h
    · exact List.mem_append_left _ (ih (by omega) x h)
    · exact List.mem_append_right _ h

theorem trace_no_repeat_until_exhaustion
    (step res : List String → Draw → List String) (elig : List String)
    (H1 : ∀ u d, (¬ ∀ x ∈ elig, x ∈ u) → ∀ x ∈ u, x ∈ step u d)
    (H2 : ∀ u d, ∀ x ∈ res u d, x ∈ step u d)
    (H3 : ∀ u d, (¬ ∀ x ∈ elig, x ∈ u) → ∀ x ∈ res u d, x ∉ u)
    (H4 : ∀ u d, ∀ x ∈ step u d, x ∈ u ∨ x ∈ res u d)
    (ds : List Draw) (i j : Nat) (t : String)
    (hij : i < j) (hj : j < ds.length)
    (hti : t ∈ tokensAtCall step res [] ds i)
    (htj : t ∈ tokensAtCall step res [] ds j) :
    ∃ m, i < m ∧ m ≤ j ∧ (∀ x ∈ elig, x ∈ usedAtCall step [] ds m) ∧
      ∀ x ∈ elig, x ∈ tokensBefore step res [] ds m := by
  by_cases hex : ∃ m, i < m ∧ m ≤ j ∧ ∀ x ∈ elig, x ∈ usedAtCall step [] ds m
  · obtain ⟨m, hm1, hm2, hm3⟩ := hex
    exact ⟨m, hm1, hm2, hm3, fun x hx =>
      usedAtCall_subset_tokensBefore step res H4 ds m (by omega) x (hm3 x hx)⟩
  · exfalso
    have hne : ∀ m, i < m → m ≤ j → ¬ ∀ x ∈ elig, x ∈ usedAtCall step [] ds m :=
      fun m h1 h2 hall => hex ⟨m, h1, h2, hall⟩
    have hstep : t ∈ usedAtCall step [] ds (i + 1) := by
      rw [usedAtCall_succ step [] ds i (by omega)]
      exact H2 _ _ t hti
    have hchain : t ∈ usedAtCall step [] ds j := by
      have h := usedAtCall_mono step elig H1 [] ds t (j - (i + 1)) (i + 1) (by omega)
        (fun k hk1 hk2 => hne k (by omega) (by omega)) hstep
      rwa [show i + 1 + (j - (i + 1)) = j by omega] at h
    exact H3 _ _ (hne j hij (le_refl j)) t htj hchain

theorem allOk_at (step : List String → Draw → List String)
    (ok : List String → Draw → Bool) :
    ∀ (ds : List Draw) (u0 : List String), allOk step ok u0 ds = true →
      ∀ m, m < ds.length →
        ok (usedAtCall step u0 ds m) (ds.getD m defaultDraw) = true := by
  intro ds
  induction ds with
  | nil =>
    intro u0 _ m hm
    simp at hm
  | cons d t ih =>
    intro u0 h m hm
    rw [allOk, Bool.and_eq_true] at h
    cases m with
    | zero => simpa [usedAtCall, traceUsed] using h.1
    | succ m =>
      have hr := ih (step u0 d) h.2 m (by simpa using hm)
      simpa [usedAtCall, List.take_succ_cons, traceUsed] using hr

/-! ## Artist instantiation of the trace lemmas -/

theorem mkResult_token_mem {α β γ : Type} {f : α → β} {g : α → ℚ → γ}
    {pool : List α} {d : Draw} {x : β}
    (hx : x ∈ (mkResult (fun r w => (f r, g r w)) pool d).map Prod.fst) :
    ∃ r ∈ pool, x = f r := by
  obtain ⟨y, hy, rfl⟩ := List.mem_map.mp hx
  obtain ⟨r, hr, u, _, rfl⟩ := mem_mkResult hy
  exact ⟨r, hr, rfl⟩

theorem artist_exhausted_iff {df : List ArtistRow} {w : Nat} {u : List String} :
    (∀ x ∈ (eligibleArtists df w).map ArtistRow.trigger, x ∈ u)
      ↔ availableArtists df w u = [] := by
  rw [availableArtists_eq_nil]
  exact List.forall_mem_map

theorem artistStep_mono (df : List ArtistRow) (p : ArtistParams) :
    ∀ u d, (¬ ∀ x ∈ (eligibleArtists df p.min_works).map ArtistRow.trigger, x ∈ u) →
      ∀ x ∈ u, x ∈ artistStep df p u d := by
  intro u d hne x hx
  have hav : availableArtists df p.min_works u ≠ [] :=
    fun h => hne (artist_exhausted_iff.mpr h)
  unfold artistStep selectArtistsOnly
  split_ifs with h1 h2 h3
  · exact hx
  · exact hx
  · show x ∈ artistUsedAfterReset df p.min_works u
    unfold artistUsedAfterReset
    rw [if_neg hav]
    exact hx
  · show x ∈ artistUsedAfterReset df p.min_works u ++ _
    unfold artistUsedAfterReset
    rw [if_neg hav]
    exact List.mem_append_left _ hx

theorem artistStep_tokens (df : List ArtistRow) (p : ArtistParams) :
    ∀ u d, ∀ x ∈ artistTokens df p u d, x ∈ artistStep df p u d := by
  intro u d x hx
  unfold artistTokens selectArtistsOnly at hx
  unfold artistStep selectArtistsOnly
  split_ifs at hx ⊢ with h1 h2 h3
  · simp [okTokens] at hx
  · simp [okTokens] at hx
  · simp [okTokens] at hx
  · show x ∈ artistUsedAfterReset df p.min_works u ++ _
    refine List.mem_append_right _ ?_
    simpa [okTokens] using hx

theorem artistStep_fresh (df : List ArtistRow) (p : ArtistParams) :
    ∀ u d, (¬ ∀ x ∈ (eligibleArtists df p.min_works).map ArtistRow.trigger, x ∈ u) →
      ∀ x ∈ artistTokens df p u d, x ∉ u := by
  intro u d hne x hx
  have hav : availableArtists df p.min_works u ≠ [] :=
    fun h => hne (artist_exhausted_iff.mpr h)
  unfold artistTokens selectArtistsOnly at hx
  split_ifs at hx with h1 h2 h3
  · simp [okTokens] at hx
  · simp [okTokens] at hx
  · simp [okTokens] at hx
  · simp only [okTokens] at hx
    obtain ⟨r, hr, rfl⟩ := mkResult_token_mem (f := ArtistRow.trigger)
      (g := fun _ w => w) hx
    have hpool : r ∈ availableArtists df p.min_works u := by
      unfold artistPool at hr
      rwa [if_neg hav] at hr
    have := (List.mem_filter.mp hpool).2
    simpa using this

theorem artistStep_subset (df : List ArtistRow) (p : ArtistParams) :
    ∀ u d, ∀ x ∈ artistStep df p u d, x ∈ u ∨ x ∈ artistTokens df p u d := by
  intro u d x hx
  unfold artistStep selectArtistsOnly at hx
  unfold artistTokens selectArtistsOnly
  split_ifs at hx ⊢ with h1 h2 h3
  · exact Or.inl hx
  · exact Or.inl hx
  · replace hx : x ∈ artistUsedAfterReset df p.min_works u := hx
    unfold artistUsedAfterReset at hx
    split_ifs at hx with h4
    · simp at hx
    · exact Or.inl hx
  · replace hx : x ∈ artistUsedAfterReset df p.min_works u ++
      (mkResult (fun r w => (r.trigger, w)) (artistPool df p.min_works u) d).map
        Prod.fst := hx
    rcases List.mem_append.mp hx with h | h
    · unfold artistUsedAfterReset at h
      split_ifs at h with h4
      · simp at h
      · exact Or.inl h
    · refine Or.inr ?_
      simpa [okTokens] using h

theorem artistStep_clear (df : List ArtistRow) (p : ArtistParams)
    (u : List String) (d : Draw) (hok : artistOk df p u d = true)
    (hav : availableArtists df p.min_works u = []) :
    artistStep df p u d = artistTokens df p u d := by
  unfold artistOk at hok
  unfold selectArtistsOnly at hok
  unfold artistStep artistTokens selectArtistsOnly
  split_ifs at hok ⊢ with h1 h2 h3
  · simp [Except.isOk, Except.toBool] at hok
  · simp [Except.isOk, Except.toBool] at hok
  · simp [Except.isOk, Except.toBool] at hok
  · show artistUsedAfterReset df p.min_works u ++ _ = _
    unfold artistUsedAfterReset
    rw [if_pos hav]
    simp [okTokens]

/-! ## Character instantiation of the trace lemmas -/

theorem character_exhausted_iff {df : List CharacterRow} {mt ms : Nat}
    {cf u : List String} :
    (∀ x ∈ (eligibleCharacters df mt ms cf).map CharacterRow.trigger, x ∈ u)
      ↔ availableCharacters df mt ms cf u = [] := by
  rw [availableCharacters_eq_nil]
  exact List.forall_mem_map

theorem characterStep_mono (df : List CharacterRow) (q : CharacterParams)
    (cf : List String) :
    ∀ u d, (¬ ∀ x ∈ (eligibleCharacters df q.min_total_works q.min_solo_works cf).map
        CharacterRow.trigger, x ∈ u) →
      ∀ x ∈ u, x ∈ characterStep df q cf u d := by
  intro u d hne x hx
  have hav : availableCharacters df q.min_total_works q.min_solo_works cf u ≠ [] :=
    fun h => hne (character_exhausted_iff.mpr h)
  unfold characterStep selectCharactersOnly
  split_ifs with h1 h2 h3
  · exact hx
  · exact hx
  · show x ∈ characterUsedAfterReset df q.min_total_works q.min_solo_works cf u
    unfold characterUsedAfterReset
    rw [if_neg hav]
    exact hx
  · show x ∈ characterUsedAfterReset df q.min_total_works q.min_solo_works cf u ++ _
    unfold characterUsedAfterReset
    rw [if_neg hav]
    exact List.mem_append_left _ hx

theorem characterStep_tokens (df : List CharacterRow) (q : CharacterParams)
    (cf : List String) :
    ∀ u d, ∀ x ∈ characterTokens df q cf u d, x ∈ characterStep df q cf u d := by
  intro u d x hx
  unfold characterTokens selectCharactersOnly at hx
  unfold characterStep selectCharactersOnly
  split_ifs at hx ⊢ with h1 h2 h3
  · simp [okTokens] at hx
  · simp [okTokens] at hx
  · simp [okTokens] at hx
  · show x ∈ characterUsedAfterReset df q.min_total_works q.min_solo_works cf u ++ _
    refine List.mem_append_right _ ?_
    simpa [okTokens] using hx

theorem characterStep_fresh (df : List CharacterRow) (q : CharacterParams)
    (cf : List String) :
    ∀ u d, (¬ ∀ x ∈ (eligibleCharacters df q.min_total_works q.min_solo_works cf).map
        CharacterRow.trigger, x ∈ u) →
      ∀ x ∈ characterTokens df q cf u d, x ∉ u := by
  intro u d hne x hx
  have hav : availableCharacters df q.min_total_works q.min_solo_works cf u ≠ [] :=
    fun h => hne (character_exhausted_iff.mpr h)
  unfold characterTokens selectCharactersOnly at hx
  split_ifs at hx with h1 h2 h3
  · simp [okTokens] at hx
  · simp [okTokens] at hx
  · simp [okTokens] at hx
  · simp only [okTokens] at hx
    obtain ⟨r, hr, rfl⟩ := mkResult_token_mem (f := CharacterRow.trigger)
      (g := fun r w => (w, r.core_tags)) hx
    have hpool : r ∈ availableCharacters df q.min_total_works q.min_solo_works cf u := by
      unfold characterPool at hr
      rwa [if_neg hav] at hr
    have := (List.mem_filter.mp hpool).2
    simpa using this

theorem characterStep_subset (df : List CharacterRow) (q : CharacterParams)
    (cf : List String) :
    ∀ u d, ∀ x ∈ characterStep df q cf u d, x ∈ u ∨ x ∈ characterTokens df q cf u d := by
  intro u d x hx
  unfold characterStep selectCharactersOnly at hx
  unfold characterTokens selectCharactersOnly
  split_ifs at hx ⊢ with h1 h2 h3
  · exact Or.inl hx
  · exact Or.inl hx
  · replace hx : x ∈ characterUsedAfterReset df q.min_total_works q.min_solo_works cf u :=
      hx
    unfold characterUsedAfterReset at hx
    split_ifs at hx with h4
    · simp at hx
    · exact Or.inl hx
  · replace hx : x ∈ characterUsedAfterReset df q.min_total_works q.min_solo_works cf u ++
      (mkResult (fun r w => (r.trigger, w, r.core_tags))
        (characterPool df q.min_total_works q.min_solo_works cf u) d).map Prod.fst := hx
    rcases List.mem_append.mp hx with h | h
    · unfold characterUsedAfterReset at h
      split_ifs at h with h4
      · simp at h
      · exact Or.inl h
    · refine Or.inr ?_
      simpa [okTokens] using h

theorem characterStep_clear (df : List CharacterRow) (q : CharacterParams)
    (cf : List String) (u : List String) (d : Draw)
    (hok : characterOk df q cf u d = true)
    (hav : availableCharacters df q.min_total_works q.min_solo_works cf u = []) :
    characterStep df q cf u d = characterTokens df q cf u d := by
  unfold characterOk at hok
  unfold selectCharactersOnly at hok
  unfold characterStep characterTokens selectCharactersOnly
  split_ifs at hok ⊢ with h1 h2 h3
  · simp [Except.isOk, Except.toBool] at hok
  · simp [Except.isOk, Except.toBool] at hok
  · simp [Except.isOk, Except.toBool] at hok
  · show characterUsedAfterReset df q.min_total_works q.min_solo_works cf u ++ _ = _
    unfold characterUsedAfterReset
    rw [if_pos hav]
    simp [okTokens]

/-- C1: over any sequence of successful `only`-mode calls starting from an
empty used-set with no intervening reset, a trigger token returned by two
different calls `i < j` forces an exhaustion event at some call `m` in
between (`i < m ≤ j`): at the start of call `m` the eligible-minus-used
pool is empty, every eligible token has already been returned by earlier
calls, and call `m` empties the used-set (afterwards it holds exactly call
`m`'s tokens), which is why tokens can recur. -/
theorem c1_no_repeat_until_exhaustion (df : List ArtistRow) (dfc : List CharacterRow)
    (p : ArtistParams) (q : CharacterParams) (cf : List String) (ds es : List Draw)
    (i j i' j' : Nat) (t t' : String)
    (hok : allOk (artistStep df p) (artistOk df p) [] ds = true)
    (hok' : allOk (characterStep dfc q cf) (characterOk dfc q cf) [] es = true)
    (hij : i < j) (hj : j < ds.length)
    (hti : t ∈ tokensAtCall (artistStep df p) (artistTokens df p) [] ds i)
    (htj : t ∈ tokensAtCall (artistStep df p) (artistTokens df p) [] ds j)
    (hij' : i' < j') (hj' : j' < es.length)
    (hti' : t' ∈ tokensAtCall (characterStep dfc q cf) (characterTokens dfc q cf) [] es i')
    (htj' : t' ∈ tokensAtCall (characterStep dfc q cf) (characterTokens dfc q cf) [] es j') :
    (∃ m, i < m ∧ m ≤ j ∧
      availableArtists df p.min_works (usedAtCall (artistStep df p) [] ds m) = [] ∧
      (∀ r ∈ eligibleArtists df p.min_works,
        r.trigger ∈ tokensBefore (artistStep df p) (artistTokens df p) [] ds m) ∧
      usedAtCall (artistStep df p) [] ds (m + 1)
        = tokensAtCall (artistStep df p) (artistTokens df p) [] ds m) ∧
    (∃ m, i' < m ∧ m ≤ j' ∧
      availableCharacters dfc q.min_total_works q.min_solo_works cf
        (usedAtCall (characterStep dfc q cf) [] es m) = [] ∧
      (∀ r ∈ eligibleCharacters dfc q.min_total_works q.min_solo_works cf,
        r.trigger ∈ tokensBefore (characterStep dfc q cf) (characterTokens dfc q cf)
          [] es m) ∧
      usedAtCall (characterStep dfc q cf) [] es (m + 1)
        = tokensAtCall (characterStep dfc q cf) (characterTokens dfc q cf) [] es m) := by
  constructor
  · obtain ⟨m, hm1, hm2, hexh, hcov⟩ :=
      trace_no_repeat_until_exhaustion (artistStep df p) (artistTokens df p)
        ((eligibleArtists df p.min_works).map ArtistRow.trigger)
        (artistStep_mono df p) (artistStep_tokens df p) (artistStep_fresh df p)
        (artistStep_subset df p) ds i j t hij hj hti htj
    have hav : availableArtists df p.min_works (usedAtCall (artistStep df p) [] ds m)
        = [] := artist_exhausted_iff.mp hexh
    refine ⟨m, hm1, hm2, hav, List.forall_mem_map.mp hcov, ?_⟩
    rw [usedAtCall_succ (artistStep df p) [] ds m (by omega)]
    exact artistStep_clear df p _ _
      (allOk_at (artistStep df p) (artistOk df p) ds [] hok m (by omega)) hav
  · obtain ⟨m, hm1, hm2, hexh, hcov⟩ :=
      trace_no_repeat_until_exhaustion (characterStep dfc q cf)
        (characterTokens dfc q cf)
        ((eligibleCharacters dfc q.min_total_works q.min_solo_works cf).map
          CharacterRow.trigger)
        (characterStep_mono dfc q cf) (characterStep_tokens dfc q cf)
        (characterStep_fresh dfc q cf) (characterStep_subset dfc q cf)
        es i' j' t' hij' hj' hti' htj'
    have hav : availableCharacters dfc q.min_total_works q.min_solo_works cf
        (usedAtCall (characterStep dfc q cf) [] es m) = [] :=
      character_exhausted_iff.mp hexh
    refine ⟨m, hm1, hm2, hav, List.forall_mem_map.mp hcov, ?_⟩
    rw [usedAtCall_succ (characterStep dfc q cf) [] es m (by omega)]
    exact characterStep_clear dfc q cf _ _
      (allOk_at (characterStep dfc q cf) (characterOk dfc q cf) es [] hok' m (by omega))
      hav

/-- Witness for C1: a one-record pool, two consecutive successful calls;
the token returned by call 0 is returned again by call 1, and the theorem
produces the exhaustion event in between. -/
theorem c1_no_repeat_until_exhaustion_witness :
    allOk (artistStep [⟨"a", "t", 5, "u"⟩] ⟨1, 1, 0, 0, 0⟩)
        (artistOk [⟨"a", "t", 5, "u"⟩] ⟨1, 1, 0, 0, 0⟩) []
        [⟨1, [0], [0]⟩, ⟨1, [0], [0]⟩] = true ∧
      allOk (characterStep [⟨"c", "cp", "s", 5, 5, "u", []⟩] ⟨1, 1, 0, 0, 0, 0⟩ [])
        (characterOk [⟨"c", "cp", "s", 5, 5, "u", []⟩] ⟨1, 1, 0, 0, 0, 0⟩ []) []
        [⟨1, [0], [0]⟩, ⟨1, [0], [0]⟩] = true ∧
      (0 : Nat) < 1 ∧ 1 < ([⟨1, [0], [0]⟩, ⟨1, [0], [0]⟩] : List Draw).length ∧
      "t" ∈ tokensAtCall (artistStep [⟨"a", "t", 5, "u"⟩] ⟨1, 1, 0, 0, 0⟩)
        (artistTokens [⟨"a", "t", 5, "u"⟩] ⟨1, 1, 0, 0, 0⟩) []
        [⟨1, [0], [0]⟩, ⟨1, [0], [0]⟩] 0 ∧
      "t" ∈ tokensAtCall (artistStep [⟨"a", "t", 5, "u"⟩] ⟨1, 1, 0, 0, 0⟩)
        (artistTokens [⟨"a", "t", 5, "u"⟩] ⟨1, 1, 0, 0, 0⟩) []
        [⟨1, [0], [0]⟩, ⟨1, [0], [0]⟩] 1 ∧
      "s" ∈ tokensAtCall
        (characterStep [⟨"c", "cp", "s", 5, 5, "u", []⟩] ⟨1, 1, 0, 0, 0, 0⟩ [])
        (characterTokens [⟨"c", "cp", "s", 5, 5, "u", []⟩] ⟨1, 1, 0, 0, 0, 0⟩ []) []
        [⟨1, [0], [0]⟩, ⟨1, [0], [0]⟩] 0 ∧
      "s" ∈ tokensAtCall
        (characterStep [⟨"c", "cp", "s", 5, 5, "u", []⟩] ⟨1, 1, 0, 0, 0, 0⟩ [])
        (characterTokens [⟨"c", "cp", "s", 5, 5, "u", []⟩] ⟨1, 1, 0, 0, 0, 0⟩ []) []
        [⟨1, [0], [0]⟩, ⟨1, [0], [0]⟩] 1 ∧
      ((∃ m, 0 < m ∧ m ≤ 1 ∧
        availableArtists [⟨"a", "t", 5, "u"⟩] 0
          (usedAtCall (artistStep [⟨"a", "t", 5, "u"⟩] ⟨1, 1, 0, 0, 0⟩) []
            [⟨1, [0], [0]⟩, ⟨1, [0], [0]⟩] m) = [] ∧
        (∀ r ∈ eligibleArtists [⟨"a", "t", 5, "u"⟩] 0,
          r.trigger ∈ tokensBefore (artistStep [⟨"a", "t", 5, "u"⟩] ⟨1, 1, 0, 0, 0⟩)
            (artistTokens [⟨"a", "t", 5, "u"⟩] ⟨1, 1, 0, 0, 0⟩) []
            [⟨1, [0], [0]⟩, ⟨1, [0], [0]⟩] m) ∧
        usedAtCall (artistStep [⟨"a", "t", 5, "u"⟩] ⟨1, 1, 0, 0, 0⟩) []
            [⟨1, [0], [0]⟩, ⟨1, [0], [0]⟩] (m + 1)
          = tokensAtCall (artistStep [⟨"a", "t", 5, "u"⟩] ⟨1, 1, 0, 0, 0⟩)
            (artistTokens [⟨"a", "t", 5, "u"⟩] ⟨1, 1, 0, 0, 0⟩) []
            [⟨1, [0], [0]⟩, ⟨1, [0], [0]⟩] m) ∧
      (∃ m, 0 < m ∧ m ≤ 1 ∧
        availableCharacters [⟨"c", "cp", "s", 5, 5, "u", []⟩] 0 0 []
          (usedAtCall
            (characterStep [⟨"c", "cp", "s", 5, 5, "u", []⟩] ⟨1, 1, 0, 0, 0, 0⟩ []) []
            [⟨1, [0], [0]⟩, ⟨1, [0], [0]⟩] m) = [] ∧
        (∀ r ∈ eligibleCharacters [⟨"c", "cp", "s", 5, 5, "u", []⟩] 0 0 [],
          r.trigger ∈ tokensBefore
            (characterStep [⟨"c", "cp", "s", 5, 5, "u", []⟩] ⟨1, 1, 0, 0, 0, 0⟩ [])
            (characterTokens [⟨"c", "cp", "s", 5, 5, "u", []⟩] ⟨1, 1, 0, 0, 0, 0⟩ []) []
            [⟨1, [0], [0]⟩, ⟨1, [0], [0]⟩] m) ∧
        usedAtCall
            (characterStep [⟨"c", "cp", "s", 5, 5, "u", []⟩] ⟨1, 1, 0, 0, 0, 0⟩ []) []
            [⟨1, [0], [0]⟩, ⟨1, [0], [0]⟩] (m + 1)
          = tokensAtCall
            (characterStep [⟨"c", "cp", "s", 5, 5, "u", []⟩] ⟨1, 1, 0, 0, 0, 0⟩ [])
            (characterTokens [⟨"c", "cp", "s", 5, 5, "u", []⟩] ⟨1, 1, 0, 0, 0, 0⟩ []) []
            [⟨1, [0], [0]⟩, ⟨1, [0], [0]⟩] m)) :=
  ⟨by decide, by decide, by decide, by decide, by decide, by decide, by decide, by decide,
    c1_no_repeat_until_exhaustion [⟨"a", "t", 5, "u"⟩] [⟨"c", "cp", "s", 5, 5, "u", []⟩]
      ⟨1, 1, 0, 0, 0⟩ ⟨1, 1, 0, 0, 0, 0⟩ [] [⟨1, [0], [0]⟩, ⟨1, [0], [0]⟩]
      [⟨1, [0], [0]⟩, ⟨1, [0], [0]⟩] 0 1 0 1 "t" "s"
      (by decide) (by decide) (by decide) (by decide) (by decide) (by decide)
      (by decide) (by decide) (by decide) (by decide)⟩
